import Mathlib

/-!
Verification of the logprobs demo script (`logprobs_demo.py`).

The script's computational core is modelled in two layers:

* a real-valued layer for the numeric pipeline (`extract_token_probabilities`,
  `calculate_seq_logprob`), where the Python floats are modelled as real
  numbers, so that the transcendental operations `2 ** x` and `math.exp` are
  exact;
* a rational-valued layer for the terminal renderer
  (`get_confidence_label`, `print_bar`, `print_token_analysis`), where the
  probability values are modelled as exact rationals so that every branch
  comparison and string computation is executable.
-/

namespace LogprobsDemo

/-- One element of `logprobs_data.content`: the service reports a token
string together with its log-probability (a Python float, modelled as ℝ). -/
structure TokenInfo where
  token : String
  logprob : ℝ

/-- One element of the list built by `extract_token_probabilities`
(the dict with keys `token`, `probability`, `logprob`). -/
structure TokenStat where
  token : String
  probability : ℝ
  logprob : ℝ

/-- The dict returned by `calculate_seq_logprob` (keys `avg_logprob`,
`avg_probability`, `perplexity`, `num_tokens`). -/
structure SeqStats where
  avg_logprob : ℝ
  avg_probability : ℝ
  perplexity : ℝ
  num_tokens : ℕ

/-- Source line 57: `prob = 2**token_info.logprob`. -/
noncomputable def prob_of_logprob (l : ℝ) : ℝ := (2 : ℝ) ^ l

/-- `extract_token_probabilities(logprobs_data)`, source lines 50-66.
`none` models a falsy `logprobs_data`; for a present object the falsy test
on `.content` is the emptiness test on the list. -/
noncomputable def extract_token_probabilities :
    Option (List TokenInfo) → List TokenStat
  | none => []
  | some content =>
    if content.isEmpty then []
    else content.map fun token_info =>
      ⟨token_info.token, prob_of_logprob token_info.logprob, token_info.logprob⟩

/-- `calculate_seq_logprob(logprobs_data)`, source lines 69-91:
mean log-probability, its base-2 exponential, and the clamped perplexity
`exp(max(min(-avg_logprob, 700), -700))`. -/
noncomputable def calculate_seq_logprob :
    Option (List TokenInfo) → Option SeqStats
  | none => none
  | some content =>
    if content.isEmpty then none
    else
      let token_logprobs := content.map fun t => t.logprob
      let num_tokens := token_logprobs.length
      let sum_logprob := token_logprobs.sum
      let avg_logprob := sum_logprob / (num_tokens : ℝ)
      let clamped := max (min (-avg_logprob) 700) (-700)
      some ⟨avg_logprob, (2 : ℝ) ^ avg_logprob, Real.exp clamped, num_tokens⟩

/-- `get_confidence_label(prob)`, source lines 99-108: label and ANSI color
code for a probability. The probability float is modelled as an exact
rational; note the LOW and VLOW branches return the same color code. -/
def get_confidence_label (prob : ℚ) : String × String :=
  if prob ≥ 0.8 then ("HIGH", "\x1b[92m")
  else if prob ≥ 0.5 then ("MED ", "\x1b[93m")
  else if prob ≥ 0.2 then ("LOW ", "\x1b[91m")
  else ("VLOW", "\x1b[91m")

/-- Python `int(q)` on a rational value: truncation toward zero. -/
def pyInt (q : ℚ) : ℤ := if 0 ≤ q then ⌊q⌋ else -⌊-q⌋

/-- Python string repetition `c * n` for a one-character string; a negative
count in the source yields the empty string, captured by callers via
`Int.toNat`. -/
def repeatChar (c : Char) (n : ℕ) : String := String.mk (List.replicate n c)

/-- `print_bar(prob, width)`, source lines 111-115:
`filled = int(prob * width)` filled blocks followed by `width - filled`
empty blocks. The Python default width is 20; call sites in this model pass
the width explicitly. -/
def print_bar (prob : ℚ) (width : ℕ) : String :=
  let filled := pyInt (prob * (width : ℚ))
  String.mk (List.replicate filled.toNat '█' ++
    List.replicate ((width : ℤ) - filled).toNat '░')

/-- ANSI reset code, source line 127. -/
def reset : String := "\x1b[0m"

/-- ANSI bold code, source line 128. -/
def bold : String := "\x1b[1m"

/-- ANSI dim code, source line 129. -/
def dim : String := "\x1b[2m"

/-- Python format alignment `<w`: left-justify in `w` columns. -/
def padRight (s : String) (w : ℕ) : String :=
  s ++ repeatChar ' ' (w - s.length)

/-- Python format alignment `>w`: right-justify in `w` columns. -/
def padLeft (s : String) (w : ℕ) : String :=
  repeatChar ' ' (w - s.length) ++ s

/-- Fixed-point decimal rendering with `digits` fractional digits, modelling
the Python float format specs `.4f` and `.2f` (and `.1%` after scaling) on
the exact rational value. The binary-float rounding detail of CPython is not
reproduced; no claim depends on the rendered digits. -/
def fmtFixed (q : ℚ) (digits : ℕ) : String :=
  let scaled : ℤ := round (q * (10 : ℚ) ^ digits)
  let sign := if scaled < 0 then "-" else ""
  let n := scaled.natAbs
  let base := (10 : ℕ) ^ digits
  let fs := toString (n % base)
  sign ++ toString (n / base) ++ "." ++ repeatChar '0' (digits - fs.length) ++ fs

/-- Python format spec `.1%`: percentage with one fractional digit. -/
def fmtPct1 (q : ℚ) : String := fmtFixed (q * 100) 1 ++ "%"

/-- Python `str()` of the temperature float interpolated into the header
line; modelled as fixed-point with one fractional digit (the demo passes
1.1). No claim depends on the rendered digits. -/
def fmtTemp (t : ℚ) : String := fmtFixed t 1

/-- Escape-visible rendering of one character, modelling the body of the
Python `repr` of a string (backslash escapes for the backslash and common
control characters). -/
def escapeChar (c : Char) : String :=
  if c = '\\' then "\\\\"
  else if c = '\n' then "\\n"
  else if c = '\t' then "\\t"
  else if c = '\r' then "\\r"
  else String.mk [c]

/-- Source line 154: `repr(t["token"])[1:-1]`, the token text with escape
sequences visible and the surrounding quotes removed. -/
def reprBody (s : String) : String := String.join (s.data.map escapeChar)

/-- Source lines 154-156: display form of a token, truncated to 12
characters plus an ellipsis when longer. -/
def tokenDisplayOf (s : String) : String :=
  let token_display := reprBody s
  if token_display.length > 12 then token_display.take 12 ++ "…"
  else token_display

/-- Renderer-side view of one token dict (`token`, `probability`,
`logprob`), with the float values as exact rationals. -/
structure RTokenStat where
  token : String
  probability : ℚ
  logprob : ℚ

/-- Renderer-side view of the sequence stats dict, with the float values as
exact rationals. -/
structure RSeqStats where
  avg_logprob : ℚ
  avg_probability : ℚ
  perplexity : ℚ
  num_tokens : ℕ

/-- Source lines 131-134 of `print_token_analysis`: the four header lines
(separator, prompt, model and temperature, separator). -/
def headerLines (prompt model : String) (temperature : ℚ) : List String :=
  ["\n" ++ repeatChar '=' 70,
   bold ++ "Prompt:" ++ reset ++ " " ++ prompt,
   bold ++ "Model:" ++ reset ++ " " ++ model ++ " | " ++ bold ++
     "Temperature:" ++ reset ++ " " ++ fmtTemp temperature,
   repeatChar '=' 70]

/-- Source lines 136-145 of `print_token_analysis`: the aggregate
Seq-Logprob block, emitted only when stats are present; the bar is rendered
at the default width 20. -/
def aggregateLines : Option RSeqStats → List String
  | none => []
  | some s =>
    let lc := get_confidence_label s.avg_probability
    let color := lc.2
    ["\n" ++ bold ++ "Overall Confidence (Seq-Logprob):" ++ reset,
     "  " ++ color ++ print_bar s.avg_probability 20 ++ reset ++ " " ++
       fmtPct1 s.avg_probability ++ " avg | logprob: " ++
       fmtFixed s.avg_logprob 4 ++ " | perplexity: " ++
       fmtFixed s.perplexity 2]

/-- Source lines 148-150 of `print_token_analysis`: the token table header. -/
def tableHeaderLines : List String :=
  ["\n" ++ bold ++ "Token Analysis:" ++ reset,
   "  " ++ padRight "Token" 15 ++ " " ++ padLeft "Prob" 8 ++ " " ++
     padLeft "Logprob" 10 ++ "  Bar",
   "  " ++ repeatChar '-' 55]

/-- Source lines 152-161 of `print_token_analysis`: one table row per token,
with the bar rendered at width 15. -/
def tokenRow (t : RTokenStat) : String :=
  let lc := get_confidence_label t.probability
  let color := lc.2
  "  " ++ padRight (tokenDisplayOf t.token) 15 ++ " " ++ color ++
    padLeft (fmtPct1 t.probability) 7 ++ reset ++ " " ++
    padLeft (fmtFixed t.logprob 4) 10 ++ "  " ++ color ++
    print_bar t.probability 15 ++ reset

/-- Source lines 163-166 of `print_token_analysis`: the completion block. -/
def completionLines (completion : String) : List String :=
  ["\n" ++ bold ++ "Complete Response:" ++ reset,
   "  " ++ dim ++ completion ++ reset,
   ""]

/-- `print_token_analysis(...)`, source lines 118-166, as the list of lines
written to standard output, one entry per `print` call, in order. -/
def print_token_analysis (prompt model : String) (temperature : ℚ)
    (completion : String) (tokens : List RTokenStat)
    (seq_stats : Option RSeqStats) : List String :=
  headerLines prompt model temperature ++
    aggregateLines seq_stats ++
    tableHeaderLines ++
    tokens.map tokenRow ++
    completionLines completion

/-- Source line 19: the configuration constant, left at its placeholder. -/
def OPENAI_API_KEY : String := "YOUR_API_KEY_HERE"

/-- Source lines 202-204: the single hardcoded prompt. -/
def demoPrompt : String :=
  "In which episode of Friends Rachel shoves up a marshmallow in Monica\x27s nose?"

/-- Outcome of the `__main__` block, source lines 191-206: either the
placeholder-credential warning together with the process exit code, reached
before any client is constructed or any network call issued, or a single
analysis run with the fixed prompt, model and temperature. -/
inductive MainOutcome where
  | configError (message : String) (exitCode : ℕ)
  | analysisRun (prompt model : String) (temperature : ℚ)

/-- The branch structure of the `__main__` block as a function of the value
of the credential constant. -/
def mainEntry (api_key : String) : MainOutcome :=
  if api_key = "YOUR_API_KEY_HERE" then
    MainOutcome.configError
      "⚠️  Please set your OPENAI_API_KEY at the top of this file" 1
  else
    MainOutcome.analysisRun demoPrompt "gpt-4o-mini" (1.1 : ℚ)

/-- C1: for every non-empty log-probability sequence, `calculate_seq_logprob`
returns stats whose `avg_logprob` is the arithmetic mean of the raw per-token
log-probabilities, whose `avg_probability` is `2 ^ avg_logprob`, and whose
`num_tokens` is the input length, which also equals the length of the
`extract_token_probabilities` output on the same input. -/
theorem C1_seq_stats_mean (content : List TokenInfo) (h : content ≠ []) :
    ∃ s : SeqStats,
      calculate_seq_logprob (some content) = some s ∧
      s.avg_logprob = (content.map fun t => t.logprob).sum / (content.length : ℝ) ∧
      s.avg_probability = (2 : ℝ) ^ s.avg_logprob ∧
      s.num_tokens = content.length ∧
      s.num_tokens = (extract_token_probabilities (some content)).length := by
  have hne : content.isEmpty = false := by
    simpa [List.isEmpty_iff] using h
  refine ⟨⟨(content.map fun t => t.logprob).sum / (content.length : ℝ),
    (2 : ℝ) ^ ((content.map fun t => t.logprob).sum / (content.length : ℝ)),
    Real.exp (max (min (-((content.map fun t => t.logprob).sum /
      (content.length : ℝ))) 700) (-700)),
    content.length⟩, ?_, rfl, rfl, rfl, ?_⟩
  · simp [calculate_seq_logprob, hne]
  · simp [extract_token_probabilities, hne]

/-- Witness for C1 at the one-element input `[("a", -1)]`. -/
theorem C1_seq_stats_mean_witness :
    ∃ s : SeqStats,
      calculate_seq_logprob (some [⟨"a", -1⟩]) = some s ∧
      s.avg_logprob =
        (([⟨"a", -1⟩] : List TokenInfo).map fun t => t.logprob).sum /
          (([⟨"a", -1⟩] : List TokenInfo).length : ℝ) ∧
      s.avg_probability = (2 : ℝ) ^ s.avg_logprob ∧
      s.num_tokens = ([⟨"a", -1⟩] : List TokenInfo).length ∧
      s.num_tokens = (extract_token_probabilities (some [⟨"a", -1⟩])).length :=
  C1_seq_stats_mean [⟨"a", -1⟩] (List.cons_ne_nil _ _)

/-- C2: for every non-empty log-probability sequence the perplexity equals
`exp (max (min (-avg_logprob) 700) (-700))`, i.e. `exp` of the clamp of
`-avg_logprob` to `[-700, 700]`, and it equals `exp 700` exactly when
`700 ≤ -avg_logprob`. -/
theorem C2_perplexity_clamp (content : List TokenInfo) (h : content ≠ []) :
    ∃ s : SeqStats,
      calculate_seq_logprob (some content) = some s ∧
      s.perplexity = Real.exp (max (min (-s.avg_logprob) 700) (-700)) ∧
      (s.perplexity = Real.exp 700 ↔ 700 ≤ -s.avg_logprob) := by
  have hne : content.isEmpty = false := by
    simpa [List.isEmpty_iff] using h
  set a := (content.map fun t => t.logprob).sum / (content.length : ℝ) with ha
  refine ⟨⟨a, (2 : ℝ) ^ a, Real.exp (max (min (-a) 700) (-700)),
    content.length⟩, ?_, rfl, ?_⟩
  · simp [calculate_seq_logprob, hne, ha]
  constructor
  · intro he
    have hmax : max (min (-a) 700) (-700) = 700 := Real.exp_eq_exp.mp he
    have h700 : (700 : ℝ) ≤ max (min (-a) 700) (-700) := hmax.ge
    rcases le_max_iff.mp h700 with hmin | hbad
    · exact (le_min_iff.mp hmin).1
    · linarith
  · intro h7
    rw [min_eq_right h7, max_eq_left (by norm_num : (-700 : ℝ) ≤ 700)]

/-- Witness for C2 at the one-element input `[("a", -1)]`. -/
theorem C2_perplexity_clamp_witness :
    ∃ s : SeqStats,
      calculate_seq_logprob (some [⟨"a", -1⟩]) = some s ∧
      s.perplexity = Real.exp (max (min (-s.avg_logprob) 700) (-700)) ∧
      (s.perplexity = Real.exp 700 ↔ 700 ≤ -s.avg_logprob) :=
  C2_perplexity_clamp [⟨"a", -1⟩] (List.cons_ne_nil _ _)

/-- C7: for log-probabilities `l ≤ 0` the derived probability `2 ^ l` lies in
`(0, 1]`, and the map `l ↦ 2 ^ l` is strictly increasing. -/
theorem C7_prob_range_mono (l l1 l2 : ℝ) (hl : l ≤ 0) (h12 : l1 < l2) :
    0 < prob_of_logprob l ∧ prob_of_logprob l ≤ 1 ∧
      prob_of_logprob l1 < prob_of_logprob l2 := by
  refine ⟨Real.rpow_pos_of_pos two_pos l,
    Real.rpow_le_one_of_one_le_of_nonpos one_le_two hl, ?_⟩
  exact (Real.rpow_lt_rpow_left_iff one_lt_two).mpr h12

/-- Witness for C7 at `l = -1`, `l1 = -2`, `l2 = -1`. -/
theorem C7_prob_range_mono_witness :
    0 < prob_of_logprob (-1) ∧ prob_of_logprob (-1) ≤ 1 ∧
      prob_of_logprob (-2) < prob_of_logprob (-1) :=
  C7_prob_range_mono (-1) (-2) (-1) (by norm_num) (by norm_num)

/-- C3: over `[0, 1]` the bucketing is total with inclusive-low boundaries:
`p ≥ 0.8` gives HIGH, `0.5 ≤ p < 0.8` gives MED, `0.2 ≤ p < 0.5` gives LOW,
`p < 0.2` gives VLOW; the boundary values 0.8, 0.5, 0.2 bucket to HIGH, MED,
LOW respectively. (The MED and LOW label strings carry a trailing padding
space in the source.) -/
theorem C3_bucket_boundaries (p : ℚ) (h0 : 0 ≤ p) (h1 : p ≤ 1) :
    ((get_confidence_label p).1 = "HIGH" ∨ (get_confidence_label p).1 = "MED " ∨
      (get_confidence_label p).1 = "LOW " ∨ (get_confidence_label p).1 = "VLOW") ∧
    (0.8 ≤ p → (get_confidence_label p).1 = "HIGH") ∧
    (0.5 ≤ p → p < 0.8 → (get_confidence_label p).1 = "MED ") ∧
    (0.2 ≤ p → p < 0.5 → (get_confidence_label p).1 = "LOW ") ∧
    (p < 0.2 → (get_confidence_label p).1 = "VLOW") ∧
    get_confidence_label 0.8 = ("HIGH", "\x1b[92m") ∧
    get_confidence_label 0.5 = ("MED ", "\x1b[93m") ∧
    get_confidence_label 0.2 = ("LOW ", "\x1b[91m") := by
  refine ⟨?_, ?_, ?_, ?_, ?_, ?_, ?_, ?_⟩
  · unfold get_confidence_label
    split_ifs <;> simp
  · intro hp
    unfold get_confidence_label
    split_ifs <;> first | rfl | linarith
  · intro hp hq
    unfold get_confidence_label
    split_ifs <;> first | rfl | linarith
  · intro hp hq
    unfold get_confidence_label
    split_ifs <;> first | rfl | linarith
  · intro hp
    unfold get_confidence_label
    split_ifs <;> first | rfl | linarith
  · unfold get_confidence_label
    split_ifs <;> first | rfl | linarith
  · unfold get_confidence_label
    split_ifs <;> first | rfl | linarith
  · unfold get_confidence_label
    split_ifs <;> first | rfl | linarith

/-- Witness for C3 at `p = 0.3`, which buckets to LOW. -/
theorem C3_bucket_boundaries_witness :
    (get_confidence_label 0.3).1 = "LOW " :=
  (C3_bucket_boundaries 0.3 (by norm_num) (by norm_num)).2.2.2.1
    (by norm_num) (by norm_num)

/-- C4: the extractor returns the empty list on an absent or empty input and
otherwise one stat per input element, in order, carrying the token and
log-probability unchanged with `probability = 2 ^ logprob`; in particular
the output length equals the input length. -/
theorem C4_extractor_shape (l : List TokenInfo) :
    extract_token_probabilities none = [] ∧
    extract_token_probabilities (some []) = [] ∧
    extract_token_probabilities (some l) =
      l.map (fun t => ⟨t.token, prob_of_logprob t.logprob, t.logprob⟩) ∧
    (extract_token_probabilities (some l)).length = l.length := by
  have hmap : extract_token_probabilities (some l) =
      l.map (fun t => ⟨t.token, prob_of_logprob t.logprob, t.logprob⟩) := by
    cases l with
    | nil => rfl
    | cons a as => rfl
  exact ⟨rfl, rfl, hmap, by rw [hmap]; simp⟩

/-- C5: for a probability `p ∈ [0, 1]` the bar consists of `⌊p * W⌋` filled
characters followed by `W - ⌊p * W⌋` empty characters, so its length is `W`;
the renderer draws the aggregate bar at width 20 and each per-token bar at
width 15. -/
theorem C5_bar_widths (p : ℚ) (W : ℕ) (h0 : 0 ≤ p) (h1 : p ≤ 1)
    (s : RSeqStats) (t : RTokenStat) :
    (print_bar p W).data =
      List.replicate (⌊p * (W : ℚ)⌋).toNat '█' ++
        List.replicate (W - (⌊p * (W : ℚ)⌋).toNat) '░' ∧
    (print_bar p W).length = W ∧
    (∃ pre post : String, aggregateLines (some s) =
      ["\n" ++ bold ++ "Overall Confidence (Seq-Logprob):" ++ reset,
       pre ++ print_bar s.avg_probability 20 ++ post]) ∧
    (∃ pre post : String,
      tokenRow t = pre ++ print_bar t.probability 15 ++ post) := by
  have hmul0 : 0 ≤ p * (W : ℚ) := mul_nonneg h0 (Nat.cast_nonneg W)
  have hfl0 : 0 ≤ ⌊p * (W : ℚ)⌋ := Int.floor_nonneg.mpr hmul0
  have hflW : ⌊p * (W : ℚ)⌋ ≤ (W : ℤ) := by
    have hle : p * (W : ℚ) ≤ (W : ℚ) := by
      calc p * (W : ℚ) ≤ 1 * (W : ℚ) :=
            mul_le_mul_of_nonneg_right h1 (Nat.cast_nonneg W)
        _ = (W : ℚ) := one_mul _
    calc ⌊p * (W : ℚ)⌋ ≤ ⌊(W : ℚ)⌋ := Int.floor_le_floor hle
      _ = (W : ℤ) := Int.floor_natCast W
  have hpy : pyInt (p * (W : ℚ)) = ⌊p * (W : ℚ)⌋ := by
    unfold pyInt
    rw [if_pos hmul0]
  have hdata : (print_bar p W).data =
      List.replicate (⌊p * (W : ℚ)⌋).toNat '█' ++
        List.replicate (W - (⌊p * (W : ℚ)⌋).toNat) '░' := by
    have hcnt : ((W : ℤ) - pyInt (p * (W : ℚ))).toNat
        = W - (⌊p * (W : ℚ)⌋).toNat := by
      rw [hpy]; omega
    show List.replicate (pyInt (p * (W : ℚ))).toNat '█' ++
        List.replicate ((W : ℤ) - pyInt (p * (W : ℚ))).toNat '░' = _
    rw [hcnt, hpy]
  refine ⟨hdata, ?_, ?_, ?_⟩
  · show (print_bar p W).data.length = W
    rw [hdata]
    simp only [List.length_append, List.length_replicate]
    omega
  · refine ⟨"  " ++ (get_confidence_label s.avg_probability).2,
      reset ++ " " ++ fmtPct1 s.avg_probability ++ " avg | logprob: " ++
        fmtFixed s.avg_logprob 4 ++ " | perplexity: " ++
        fmtFixed s.perplexity 2, ?_⟩
    simp [aggregateLines, String.append_assoc]
  · refine ⟨"  " ++ padRight (tokenDisplayOf t.token) 15 ++ " " ++
      (get_confidence_label t.probability).2 ++
      padLeft (fmtPct1 t.probability) 7 ++ reset ++ " " ++
      padLeft (fmtFixed t.logprob 4) 10 ++ "  " ++
      (get_confidence_label t.probability).2, reset, ?_⟩
    simp [tokenRow, String.append_assoc]

/-- Witness for C5 at `p = 1/2`, `W = 20` and concrete renderer inputs. -/
theorem C5_bar_widths_witness :
    (print_bar (1/2) 20).length = 20 :=
  (C5_bar_widths (1/2) 20 (by norm_num) (by norm_num)
    ⟨-1, 1/2, 2, 1⟩ ⟨"a", 1/2, -1⟩).2.1

/-- C6: every color emitted is one of green, yellow, red; LOW inputs and
VLOW inputs get the same color code while their labels differ; and the three
color codes are pairwise distinct (so exactly three distinct colors appear,
not two). -/
theorem C6_low_vlow_share_color (p p1 p2 : ℚ) (ha : 0.2 ≤ p1) (hb : p1 < 0.5)
    (hc : p2 < 0.2) :
    ((get_confidence_label p).2 = "\x1b[92m" ∨
      (get_confidence_label p).2 = "\x1b[93m" ∨
      (get_confidence_label p).2 = "\x1b[91m") ∧
    (get_confidence_label p1).2 = (get_confidence_label p2).2 ∧
    (get_confidence_label p1).1 ≠ (get_confidence_label p2).1 ∧
    ("\x1b[92m" : String) ≠ "\x1b[93m" ∧
    ("\x1b[92m" : String) ≠ "\x1b[91m" ∧
    ("\x1b[93m" : String) ≠ "\x1b[91m" := by
  have e1 : get_confidence_label p1 = ("LOW ", "\x1b[91m") := by
    unfold get_confidence_label
    split_ifs <;> first | rfl | linarith
  have e2 : get_confidence_label p2 = ("VLOW", "\x1b[91m") := by
    unfold get_confidence_label
    split_ifs <;> first | rfl | linarith
  refine ⟨?_, ?_, ?_, ?_, ?_, ?_⟩
  · unfold get_confidence_label
    split_ifs <;> simp
  · rw [e1, e2]
  · rw [e1, e2]
    simp
  · decide
  · decide
  · decide

/-- Witness for C6 at `p1 = 0.3` (LOW) and `p2 = 0.1` (VLOW). -/
theorem C6_low_vlow_share_color_witness :
    (get_confidence_label 0.3).2 = (get_confidence_label 0.1).2 :=
  (C6_low_vlow_share_color 1 0.3 0.1 (by norm_num) (by norm_num)
    (by norm_num)).2.1

/-- C8: with the placeholder credential the entry point produces the warning
message and exit code 1 (nonzero) without reaching client construction; with
any other credential it runs the single fixed analysis. -/
theorem C8_entry_guard (k : String) (hk : k ≠ "YOUR_API_KEY_HERE") :
    mainEntry OPENAI_API_KEY =
      MainOutcome.configError
        "⚠️  Please set your OPENAI_API_KEY at the top of this file" 1 ∧
    (1 : ℕ) ≠ 0 ∧
    mainEntry k =
      MainOutcome.analysisRun demoPrompt "gpt-4o-mini" (1.1 : ℚ) := by
  refine ⟨rfl, one_ne_zero, ?_⟩
  unfold mainEntry
  rw [if_neg hk]

/-- Witness for C8 with a non-placeholder credential. -/
theorem C8_entry_guard_witness :
    mainEntry "sk-test" =
      MainOutcome.analysisRun demoPrompt "gpt-4o-mini" (1.1 : ℚ) :=
  (C8_entry_guard "sk-test" (by decide)).2.2

/-- C9: on an absent or empty log-probability sequence the extractor returns
the empty list, the calculator returns no stats, and the renderer emits no
aggregate block and no token rows while still emitting the header, the table
header and the completion block. -/
theorem C9_empty_pipeline (prompt model completion : String)
    (temperature : ℚ) :
    extract_token_probabilities none = [] ∧
    extract_token_probabilities (some []) = [] ∧
    calculate_seq_logprob none = none ∧
    calculate_seq_logprob (some []) = none ∧
    aggregateLines none = [] ∧
    ([] : List RTokenStat).map tokenRow = [] ∧
    print_token_analysis prompt model temperature completion [] none =
      headerLines prompt model temperature ++ tableHeaderLines ++
        completionLines completion := by
  refine ⟨rfl, rfl, rfl, rfl, rfl, rfl, ?_⟩
  simp [print_token_analysis, aggregateLines]

/-- C10: the bucketing is total beyond `[0, 1]` as well: any `p > 1` gets
the HIGH pair (the same value as any probability of at least 0.8), and any
`p < 0` gets the VLOW pair. -/
theorem C10_label_total_outside (p : ℚ) :
    (1 < p → get_confidence_label p = ("HIGH", "\x1b[92m")) ∧
    (1 < p → ∀ q : ℚ, 0.8 ≤ q →
      get_confidence_label p = get_confidence_label q) ∧
    (p < 0 → get_confidence_label p = ("VLOW", "\x1b[91m")) := by
  refine ⟨?_, ?_, ?_⟩
  · intro hp
    unfold get_confidence_label
    split_ifs <;> first | rfl | linarith
  · intro hp q hq
    unfold get_confidence_label
    split_ifs <;> first | rfl | linarith
  · intro hp
    unfold get_confidence_label
    split_ifs <;> first | rfl | linarith

/-- Witness for C10 at `p = 2` and `p = -1`. -/
theorem C10_label_total_outside_witness :
    get_confidence_label 2 = ("HIGH", "\x1b[92m") ∧
    get_confidence_label (-1) = ("VLOW", "\x1b[91m") :=
  ⟨(C10_label_total_outside 2).1 (by norm_num),
   (C10_label_total_outside (-1)).2.2 (by norm_num)⟩

end LogprobsDemo
